import Mathlib

/-!
Verification of the energy2mqtt decoder core against its specification.

This file shallowly embeds the Rust source of the repository into Lean:

* Rust byte slices (`&[u8]`, `Vec<u8>`) are modelled as `List Nat` whose
  elements are below 256 (stated as hypotheses where a theorem needs it).
* Rust strings are modelled as `List Char` (all inputs of interest are
  ASCII, so Rust's byte indexing coincides with char indexing) or as
  Lean `String` where the source only moves whole strings around.
* `serde_json::Value` is modelled by the inductive `JValue`; all JSON
  numbers (u8..u64, i64, f32, f64) are carried as exact rationals.
* Fallible Rust code (`Result`) becomes `Except`; Rust panics
  (out-of-bounds indexing, usize subtraction underflow) are modelled
  explicitly by a dedicated error/outcome constructor.
* `f32` arithmetic in the Modbus path is modelled exactly by the `F32`
  mantissa-times-power-of-two representation: `f32FromRat` quantizes with
  round to nearest, ties to even; `f32Mul` is IEEE binary32
  multiplication; `f32RoundHalfAway` is Rust's `f32::round` (normal range
  only, which covers every value appearing here).
* AES-128-CBC decryption (the `aes`/`cbc` crates) is external to the
  repository; `parse_oms_telegram` takes the decryption function as an
  explicit parameter.

Definitions keep the names of the Rust items they embed.
-/

/-! ## Generic helpers: Rust string and formatting primitives -/

/-- Rust `str::split(c)` on a character, over `List Char`: splits at every
occurrence of `c`, keeping empty fragments, always at least one fragment. -/
def rsplit (c : Char) : List Char → List (List Char)
  | [] => [[]]
  | x :: xs =>
    if x = c then [] :: rsplit c xs
    else
      match rsplit c xs with
      | h :: t => (x :: h) :: t
      | [] => [[x]]

/-- Number of occurrences of a character in a char list. -/
def countChar (c : Char) (s : List Char) : Nat :=
  (s.filter (fun x => x = c)).length

/-- Rust `char::is_whitespace` restricted to the ASCII inputs used here. -/
def rustIsWhitespace (c : Char) : Bool :=
  c = ' ' ∨ c = '\t' ∨ c = '\n' ∨ c = '\r'

/-- Rust `str::trim` over `List Char`. -/
def rustTrim (s : List Char) : List Char :=
  ((s.dropWhile rustIsWhitespace).reverse.dropWhile rustIsWhitespace).reverse

/-- Rust `str::lines`: split at `'\n'`, drop the fragment after a final
newline, and strip one trailing `'\r'` from each line. -/
def rustLines (s : List Char) : List (List Char) :=
  let parts := rsplit '\n' s
  let parts :=
    match parts.reverse with
    | [] :: rest => rest.reverse
    | _ => parts
  parts.map (fun l =>
    match l.reverse with
    | '\r' :: r => r.reverse
    | _ => l)

/-- Rust `str::parse::<u8>()`: optional leading `'+'`, then one or more
ASCII digits, value at most 255. -/
def rustParseU8 (s : List Char) : Option Nat :=
  let cs := match s with
    | '+' :: rest => rest
    | cs => cs
  if cs.isEmpty then none
  else if cs.all Char.isDigit then
    let n := cs.foldl (fun a c => a * 10 + (c.toNat - 48)) 0
    if n < 256 then some n else none
  else none

/-- One lowercase hexadecimal digit. -/
def hexDigitLower (n : Nat) : Char :=
  if n < 10 then Char.ofNat (48 + n) else Char.ofNat (87 + n)

/-- One uppercase hexadecimal digit. -/
def hexDigitUpper (n : Nat) : Char :=
  if n < 10 then Char.ofNat (48 + n) else Char.ofNat (55 + n)

/-- Hex digits of `n`, most significant first (fuel-structural so that it
evaluates inside the kernel). -/
def hexDigitsF (digit : Nat → Char) : Nat → Nat → List Char
  | 0, _ => []
  | f + 1, n =>
    if n < 16 then [digit n]
    else hexDigitsF digit f (n / 16) ++ [digit (n % 16)]

/-- Rust `format!("{:x}", n)`: lowercase hex, no padding. -/
def fmtHexLower (n : Nat) : String :=
  String.mk (hexDigitsF hexDigitLower (n + 1) n)

/-- Rust `format!("{:02x}", n)`: lowercase hex padded to width 2. -/
def fmtHex02Lower (n : Nat) : String :=
  if n < 16 then String.mk ['0', hexDigitLower n] else fmtHexLower n

/-- Rust `format!("{:X}", n)`: uppercase hex, no padding. -/
def fmtHexUpper (n : Nat) : String :=
  String.mk (hexDigitsF hexDigitUpper (n + 1) n)

/-- Decimal rendering padded to width 2 with zeros (`{:02}`). -/
def fmtDec02 (n : Nat) : String :=
  if n < 10 then "0" ++ toString n else toString n

/-- Decimal rendering padded to width 4 with zeros (`{:04}`). -/
def fmtDec04 (n : Nat) : String :=
  if n < 10 then "000" ++ toString n
  else if n < 100 then "00" ++ toString n
  else if n < 1000 then "0" ++ toString n
  else toString n

/-- `hex::decode` of an ASCII hex string: two hex digits per byte, fails on
odd length or a non-hex character. -/
def hexDecode (s : List Char) : Option (List Nat) :=
  match s with
  | [] => some []
  | [_] => none
  | a :: b :: rest =>
    let dv : Char → Option Nat := fun c =>
      if '0' ≤ c ∧ c ≤ '9' then some (c.toNat - 48)
      else if 'a' ≤ c ∧ c ≤ 'f' then some (c.toNat - 87)
      else if 'A' ≤ c ∧ c ≤ 'F' then some (c.toNat - 55)
      else none
    match dv a, dv b, hexDecode rest with
    | some ha, some hb, some r => some ((ha * 16 + hb) :: r)
    | _, _, _ => none

/-! ## JSON model

`serde_json::Value` restricted to the shapes this code produces, and
`serde_json::Map` as an ordered association list whose `insert` replaces an
existing key in place and otherwise appends. -/

/-- Model of `serde_json::Value`; every JSON number is carried as a rational. -/
inductive JValue where
  | str (s : String)
  | num (q : ℚ)
  | jbool (b : Bool)
  | obj (fields : List (String × JValue))

/-- Model of `serde_json::Map<String, Value>`. -/
abbrev JMap := List (String × JValue)

/-- `serde_json::Map::insert`: replace in place, else append. -/
def jmapInsert (m : JMap) (k : String) (v : JValue) : JMap :=
  match m with
  | [] => [(k, v)]
  | (k', v') :: rest =>
    if k' = k then (k, v) :: rest else (k', v') :: jmapInsert rest k v

/-- `serde_json::Map::append`: move every entry of the second map into the
first, replacing duplicates. -/
def jmapAppend (m other : JMap) : JMap :=
  other.foldl (fun acc kv => jmapInsert acc kv.1 kv.2) m

/-- Key lookup in a `JMap`. -/
def jmapGet (m : JMap) (k : String) : Option JValue :=
  match m.find? (fun kv => kv.1 = k) with
  | some kv => some kv.2
  | none => none

/-! ## f32 model for the Modbus value path

IEEE-754 binary32 values are modelled as an integer mantissa times a power
of two (`F32`), with all rounding performed by exact integer arithmetic
(normal range only, which covers every value appearing in this code).
`f32FromRat n d` is the binary32 value nearest to `n / d` (round to
nearest, ties to even) — the value Rust obtains when parsing a decimal
register-map scaler into an `f32` or converting a `u32` with `as f32`;
`f32Mul` is IEEE binary32 multiplication; `f32RoundHalfAway` is Rust's
`f32::round`. -/

/-- Base-2 logarithm (floor) of a positive natural, fuel-structural. -/
def natLog2F : Nat → Nat → Nat
  | 0, _ => 0
  | f + 1, n => if 2 ≤ n then natLog2F f (n / 2) + 1 else 0

/-- Base-2 logarithm (floor) of a positive natural. -/
def natLog2 (n : Nat) : Nat := natLog2F n n

/-- Divide with round to nearest, ties to even (`n`, `d` naturals, `d ≠ 0`). -/
def divTiesEven (n d : Nat) : Nat :=
  let q := n / d
  let r := n % d
  if 2 * r < d then q
  else if d < 2 * r then q + 1
  else if q % 2 = 0 then q else q + 1

/-- Divide with round half away from zero (`n`, `d` naturals, `d ≠ 0`). -/
def divHalfAway (n d : Nat) : Nat :=
  let q := n / d
  let r := n % d
  if d ≤ 2 * r then q + 1 else q

/-- A binary32 value `m * 2 ^ e`; after quantization `|m| < 2 ^ 24` (or
exactly `2 ^ 24`, which denotes the same value as `2 ^ 23 * 2 ^ (e + 1)`). -/
structure F32 where
  m : ℤ
  e : ℤ

/-- The exponent `e` with `2 ^ e ≤ n / d < 2 ^ (e + 1)` for positive `n / d`:
it is `natLog2 n - natLog2 d`, corrected down by one when needed. -/
def ratExp2 (n d : Nat) : ℤ :=
  let e0 : ℤ := (natLog2 n : ℤ) - (natLog2 d : ℤ)
  let holds : Bool :=
    if 0 ≤ e0 then d * 2 ^ e0.toNat ≤ n else n * 2 ^ (-e0).toNat ≥ d
  if holds then e0 else e0 - 1

/-- Quantize the nonnegative rational `n / d` (`d ≠ 0`) to the nearest
binary32 value, ties to even. -/
def f32FromRat (n d : Nat) : F32 :=
  if n = 0 then ⟨0, 0⟩
  else
    let scale : ℤ := ratExp2 n d - 23
    let num := if 0 ≤ scale then n else n * 2 ^ (-scale).toNat
    let den := if 0 ≤ scale then d * 2 ^ scale.toNat else d
    ⟨(divTiesEven num den : ℤ), scale⟩

/-- `u32 as f32` (round to nearest, ties to even). -/
def u32ToF32 (v : Nat) : F32 := f32FromRat v 1

/-- IEEE binary32 multiplication: exact integer product, then rounding of
the mantissa back to 24 bits, ties to even. -/
def f32Mul (a b : F32) : F32 :=
  let p : ℤ := a.m * b.m
  if p = 0 then ⟨0, 0⟩
  else
    let ap := p.natAbs
    let lp := natLog2 ap
    let shift : Nat := if 23 ≤ lp then lp - 23 else 0
    let m := divTiesEven ap (2 ^ shift)
    ⟨if p < 0 then -(m : ℤ) else (m : ℤ), a.e + b.e + (shift : ℤ)⟩

/-- Rust `f32::round` (round half away from zero) of a binary32 value, as
an exact integer. -/
def f32RoundHalfAway (a : F32) : ℤ :=
  let ap := a.m.natAbs
  let r : ℤ :=
    if 0 ≤ a.e then (ap * 2 ^ a.e.toNat : ℤ)
    else (divHalfAway ap (2 ^ (-a.e).toNat) : ℤ)
  if a.m < 0 then -r else r

/-- The rational value denoted by an `F32` (interpretation only; no
computation is performed on this). -/
def f32ToRat (a : F32) : ℚ := (a.m : ℚ) * (2 : ℚ) ^ a.e

/-! ## Modbus poller (src/metering_modbus/mod.rs)

Only the pure value pipeline of `read_device_registers` is embedded: word
composition per register format, f32 scaling, and the value-mapping step.
The per-hub cadence computation of `ModbusManger::start_thread` is embedded
as `hub_inveral_sec` (its variable name in the source) and
`waits_till_read`. -/

/-- `ModbusRegisterFormat` from src/metering_modbus/registers.rs. -/
inductive ModbusRegisterFormat where
  | Int16
  | Int32
deriving DecidableEq

/-- `Mapping` from src/metering_modbus/registers.rs: a `data` match string
and a replacement JSON value. -/
structure Mapping where
  data : String
  mapping : JValue

/-- `v = u32::from(data[0]) << 16 | u32::from(data[1])` — the Int32
composition of two 16-bit words (mod.rs line 323). -/
def composeInt32 (w0 w1 : Nat) : Nat :=
  (w0 <<< 16) ||| w1

/-- Rust `format!("{:?}", v)` for the integral `f32` produced by
`(v as f32 * reg.scaler).round()`: Debug rendering of an integral float
always shows one fractional digit, e.g. `1.0`, `70.0`, `-3.0`.  (Rust
switches to exponent notation only at magnitudes far beyond any register
value appearing here.) -/
def fmtF32Debug (n : ℤ) : String :=
  toString n ++ ".0"

/-- The value-mapping step of `read_device_registers` (mod.rs lines
344-365): first mapping whose `data` equals the Debug rendering of the
scaled f32 wins; else the `"_"` wildcard mapping; else the scaled numeric
value itself. -/
def applyValueMappings (mappings : List Mapping) (v : ℤ) : JValue :=
  match mappings.find? (fun m => m.data = fmtF32Debug v) with
  | some m => m.mapping
  | none =>
    match mappings.find? (fun m => m.data = "_") with
    | some m => m.mapping
    | none => JValue.num (v : ℚ)

/-- The whole per-register value pipeline of `read_device_registers`
(mod.rs lines 310-369): compose the parsed u16 words per the register
format, multiply by the f32 scaler (`v as f32 * reg.scaler`), round half
away from zero (`.round()`), and apply the value mappings.  `scaler` is
the binary32 value stored in the register map (callers pass the
quantization of the decimal literal, e.g. `f32FromRat 1 10` for `0.1`). -/
def processRegisterValue (format : ModbusRegisterFormat) (data : List Nat)
    (scaler : F32) (mappings : List Mapping) : JValue :=
  let v : Nat :=
    match format with
    | .Int32 => composeInt32 (data.getD 0 0) (data.getD 1 0)
    | .Int16 => data.getD 0 0
  let scaled : ℤ := f32RoundHalfAway (f32Mul (u32ToF32 v) scaler)
  applyValueMappings mappings scaled

/-- The per-hub tick of `ModbusManger::start_thread` (mod.rs lines
128-132): start at 60 and take the minimum over the devices'
`read_interval`s. -/
def hub_inveral_sec (intervals : List Nat) : Nat :=
  intervals.foldl min 60

/-- `device.waits_till_read = device.config.read_interval / hub_inveral_sec`
(mod.rs line 137): Rust u32 division, i.e. floor division. -/
def waits_till_read (read_interval tick : Nat) : Nat :=
  read_interval / tick

/-- The effective read interval reported by the warning on mod.rs line 139:
`new_sec = waits_till_read * hub_inveral_sec`. -/
def effective_read_interval (read_interval tick : Nat) : Nat :=
  waits_till_read read_interval tick * tick

/-! ## Shared record model

`DeviceProtocol` from src/models/mod.rs and the fields of `MeteringData`
(src/mqtt/mod.rs) that the decoders compute.  The fields `id`, `tenant`,
`transmission_time`, `transmission_type` and `metered_time` are omitted:
they are either constants of `MeteringData::new` or wall-clock readings. -/

/-- `DeviceProtocol` from src/models/mod.rs. -/
inductive DeviceProtocol where
  | Unknown
  | ModbusTCP
  | ModbusRTU
  | OMS
  | MBUS
  | LoRaWAN
  | NBIoT
  | Tibber
  | IEC62056
  | SML
  | Victron
  | KNX
deriving DecidableEq

/-- The decoder-computed fields of `MeteringData` (src/mqtt/mod.rs);
`MeteringData::new` initializes `meter_name` to the empty string,
`protocol` to `Unknown` and `metered_values` to the empty map. -/
structure MeteringData where
  meter_name : String
  protocol : DeviceProtocol
  metered_values : JMap

/-! ## OBIS utilities (src/obis_utils/mod.rs) -/

/-- `validate_obis_code` from src/obis_utils/mod.rs lines 121-161:
split at `':'` into exactly two parts, split the first part at `'-'` into
exactly two parts, split the second part (cut at the first `'*'` when one
is present) at `'.'` into exactly three parts, and require every collected
part to parse as a `u8`. -/
def validate_obis_code (code : List Char) : Bool :=
  match rsplit ':' code with
  | [ab_part, cde_part] =>
    match rsplit '-' ab_part with
    | [a, b] =>
      let cde_parts :=
        if cde_part.contains '*' then rsplit '.' ((rsplit '*' cde_part).getD 0 [])
        else rsplit '.' cde_part
      if cde_parts.length ≠ 3 then false
      else ([a, b] ++ cde_parts).all (fun p => (rustParseU8 p).isSome)
    | _ => false
  | _ => false

/-- `extract_unit` from src/obis_utils/mod.rs lines 167-175: everything
after the last `'*'`, when nonempty. -/
def extract_unit (value_content : List Char) : Option String :=
  if value_content.contains '*' then
    let unit := (rsplit '*' value_content).getLastD []
    if unit.isEmpty then none else some (String.mk unit)
  else none

/-- `normalize_obis_code` from src/obis_utils/mod.rs line 163: trim. -/
def normalize_obis_code (code : List Char) : List Char :=
  rustTrim code

/-- The OBIS validity predicate exactly as claim C7 words it: the string
contains exactly one `'-'`, exactly one `':'`, exactly three dot-separated
fields after the `':'` (the optional `*F` suffix cut off the last one),
and every field — A, B, C, D, E, and the optional F after `'*'` — parses
as an 8-bit unsigned integer. -/
def claimValidObis (code : List Char) : Bool :=
  countChar '-' code = 1 && countChar ':' code = 1 &&
  (let before := (rsplit ':' code).getD 0 []
   let after := (rsplit ':' code).getD 1 []
   let ab := rsplit '-' before
   let main := if after.contains '*' then (rsplit '*' after).getD 0 [] else after
   let fOpt : Option (List Char) :=
     if after.contains '*' then some ((rsplit '*' after).getD 1 []) else none
   let cde := rsplit '.' main
   cde.length = 3 && (ab ++ cde).all (fun p => (rustParseU8 p).isSome) &&
   (match fOpt with
    | some f => (rustParseU8 f).isSome
    | none => true))

/-- The amended C7 predicate: as the claim, except that the `'-'` count is
over the part before the `':'` only and that everything after the first
`'*'` (the F field) is ignored rather than validated. -/
def amendedValidObis (code : List Char) : Bool :=
  countChar ':' code = 1 &&
  (let before := (rsplit ':' code).getD 0 []
   let after := (rsplit ':' code).getD 1 []
   countChar '-' before = 1 &&
   (let cde :=
      if after.contains '*' then rsplit '.' ((rsplit '*' after).getD 0 [])
      else rsplit '.' after
    cde.length = 3 &&
    (rsplit '-' before ++ cde).all (fun p => (rustParseU8 p).isSome)))

/-! ## IEC 62056-21 telegram parser (src/metering_62056) -/

/-- `Iec62056ParseError` from src/metering_62056/mod.rs. -/
inductive Iec62056ParseError where
  | InvalidFormat
  | UnsupportedMode
  | InvalidObisCode
  | ChecksumFailed
  | DeviceNotConfigured
  | MissingIdentification
  | InvalidDataLine
deriving DecidableEq

/-- `DeviceIdentification` from src/metering_62056/structs.rs as produced
by `parse_identification_line`. -/
structure DeviceIdentification where
  manufacturer : String
  identification : String
  mode : String
  full_id : String

/-- `ObisData` from src/obis_utils/mod.rs. -/
structure ObisData where
  code : String
  value : String
  unit : Option String

/-- Rust `str::starts_with(c)` over `List Char`. -/
def startsWithChar (l : List Char) (c : Char) : Bool :=
  match l with
  | [] => false
  | x :: _ => x = c

/-- `determine_protocol_mode` from src/metering_62056/utils.rs lines 40-51:
`'@'` in the identification means mode C, length over 10 means mode D,
otherwise mode A. -/
def determine_protocol_mode (identification : List Char) : String :=
  if identification.contains '@' then "C"
  else if identification.length > 10 then "D"
  else "A"

/-- `parse_identification_line` from src/metering_62056/utils.rs lines
4-38: strip the leading `'/'`, take the first three characters as the
manufacturer, the whole remainder as the identification, infer the mode,
and set `full_id` to manufacturer ++ identification. -/
def parse_identification_line (line : List Char) :
    Except Iec62056ParseError DeviceIdentification :=
  if ¬ startsWithChar line '/' then .error .MissingIdentification
  else
    let content := line.tail
    if content.length ≥ 3 then
      let manufacturer := content.take 3
      .ok { manufacturer := String.mk manufacturer
            identification := String.mk content
            mode := determine_protocol_mode content
            full_id := String.mk (manufacturer ++ content) }
    else .error .InvalidFormat

/-- Index of the first occurrence of `c` (Rust `str::find`). -/
def findIdxChar (c : Char) (l : List Char) : Option Nat :=
  l.findIdx? (fun x => x = c)

/-- Index of the last occurrence of `c` (Rust `str::rfind`). -/
def rfindIdxChar (c : Char) (l : List Char) : Option Nat :=
  match l.reverse.findIdx? (fun x => x = c) with
  | some i => some (l.length - 1 - i)
  | none => none

/-- `parse_obis_line` from src/metering_62056/obis_parser.rs lines 5-43:
trim the line, locate the first `'('` and the last `')'`, take the trimmed
prefix as the OBIS code, the text between the parentheses as the value,
and `extract_unit` of that text as the unit. -/
def parse_obis_line (line : List Char) : Except Iec62056ParseError ObisData :=
  let line := rustTrim line
  match findIdxChar '(' line with
  | none => .error .InvalidDataLine
  | some paren_start =>
    match rfindIdxChar ')' line with
    | none => .error .InvalidDataLine
    | some paren_end =>
      if paren_start ≥ paren_end then .error .InvalidDataLine
      else
        let obis_code := normalize_obis_code (line.take paren_start)
        let value_content := (line.drop (paren_start + 1)).take (paren_end - paren_start - 1)
        .ok { code := String.mk obis_code
              value := String.mk value_content
              unit := extract_unit value_content }

/-- The data-line loop of `parse_iec62056_telegram` (mod.rs lines
120-147): skip blank lines, stop at a line starting with `'!'`, insert
`code ↦ value` and `code_unit ↦ unit` for every line that parses, skip
lines that do not. -/
def iecDataLines : List (List Char) → JMap → JMap
  | [], acc => acc
  | line :: rest, acc =>
    if (rustTrim line).isEmpty then iecDataLines rest acc
    else if startsWithChar line '!' then acc
    else
      match parse_obis_line line with
      | .ok obis_data =>
        let acc := jmapInsert acc obis_data.code (.str obis_data.value)
        let acc :=
          match obis_data.unit with
          | some u => jmapInsert acc (obis_data.code ++ "_unit") (.str u)
          | none => acc
        iecDataLines rest acc
      | .error _ => iecDataLines rest acc

/-- `parse_iec62056_telegram` from src/metering_62056/mod.rs lines 91-155.
No checksum of any kind is computed: the loop stops at the `'!'` line and
ignores everything on and after it. -/
def parse_iec62056_telegram (telegram : List Char) :
    Except Iec62056ParseError MeteringData :=
  let lines := rustLines telegram
  if lines.isEmpty then .error .InvalidFormat
  else
    match lines.head? with
    | none => .error .MissingIdentification
    | some identification_line =>
      if ¬ startsWithChar identification_line '/' then .error .MissingIdentification
      else
        match parse_identification_line identification_line with
        | .error e => .error e
        | .ok device_info =>
          let protocol_map : JMap :=
            jmapInsert (jmapInsert (jmapInsert (jmapInsert []
              "type" (.str "iec62056"))
              "manufacturer" (.str device_info.manufacturer))
              "identification" (.str device_info.identification))
              "mode" (.str device_info.mode)
          let mv := iecDataLines lines.tail []
          let mv := jmapInsert mv "proto" (.obj protocol_map)
          .ok { meter_name := device_info.full_id
                protocol := .IEC62056
                metered_values := mv }

/-- XOR accumulator for `specIecBcc`: fold character codes up to and
including the first `'!'`. -/
def specIecBccFold : List Char → Nat → Nat
  | [], acc => acc
  | c :: rest, acc =>
    if c = '!' then acc ^^^ c.toNat
    else specIecBccFold rest (acc ^^^ c.toNat)

/-- The BCC prescribed by the spec for IEC 62056-21 (spec §4.4), which the
source never computes: XOR of the character codes from the character after
`'/'` through `'!'` inclusive. -/
def specIecBcc (telegram : List Char) : Nat :=
  match telegram with
  | '/' :: rest => specIecBccFold rest 0
  | _ => 0

/-- `true` when an IEC 62056-21 parse outcome is anything other than the
`ChecksumFailed` error. -/
def iecNotChecksumFailed (r : Except Iec62056ParseError MeteringData) : Bool :=
  match r with
  | .error .ChecksumFailed => false
  | _ => true

/-! ## SML TLV parser (src/metering_sml/parser.rs)

The parser state is the input byte slice plus a cursor; each basic parser
returns the parsed value together with the new cursor position. -/

/-- `SmlError` from src/metering_sml/mod.rs. -/
inductive SmlError where
  | InvalidMessage
  | ParseError (detail : String)
deriving DecidableEq

/-- `SmlParser::parse_type_length` (parser.rs lines 209-234): the high
nibble's low three bits are the type, the low nibble the length; low
nibble `0x0F` switches to the one-byte extended length. -/
def parse_type_length (data : List Nat) (pos : Nat) :
    Except SmlError ((Nat × Nat) × Nat) :=
  if pos ≥ data.length then .error (.ParseError "Unexpected end of data")
  else
    let first_byte := data.getD pos 0
    let pos := pos + 1
    let type_field := (first_byte >>> 4) &&& 0x07
    let length_field := first_byte &&& 0x0F
    if length_field = 0x0F then
      if pos ≥ data.length then .error (.ParseError "Unexpected end in extended length")
      else .ok ((type_field, data.getD pos 0), pos + 1)
    else .ok ((type_field, length_field), pos)

/-- `SmlParser::parse_octet_string` (parser.rs lines 244-263): read one
TLV; a type field of 0 yields `None` (treated as null/absent); for any
other type with positive length, copy `length` bytes. -/
def parse_octet_string (data : List Nat) (pos : Nat) :
    Except SmlError (Option (List Nat) × Nat) :=
  match parse_type_length data pos with
  | .error e => .error e
  | .ok ((type_field, length), pos) =>
    if type_field = 0 then .ok (none, pos)
    else if type_field ≠ 0 ∧ length > 0 then
      if pos + length > data.length then
        .error (.ParseError "Octet string extends beyond data")
      else .ok (some ((data.drop pos).take length), pos + length)
    else .ok (none, pos)

/-! ## OMS frame decoder (src/metering_oms)

Errors and panics are propagated in `OmsM`: `OmsStop.err` carries an
`OmsParseError`; `OmsStop.panic` marks a Rust panic (out-of-bounds index,
usize subtraction underflow, the `todo!` for long headers, or a key of the
wrong length handed to the AES crate — the last is absorbed into the
`decrypt_mode5` parameter here). -/

/-- `OmsParseError` from src/metering_oms/mod.rs (constructor names as in
the source, including the `CRCMissMatch` spelling). -/
inductive OmsParseError where
  | TelegramTooShort
  | TelegramTooLong
  | UnsupportedTelegramType
  | CRCMissMatch
  | WiredProtocolNotSupported
  | SecurityModeNotSupported
  | DecryptionFailed
  | SecurityCiTypeNotSupported
  | SensorNotConfigured
deriving DecidableEq

/-- How an OMS parse stops early: a returned error or a Rust panic. -/
inductive OmsStop where
  | err (e : OmsParseError)
  | panic
deriving DecidableEq

/-- Outcome monad for the OMS decoder. -/
abbrev OmsM (α : Type) := Except OmsStop α

/-- `Vec` indexing `telegram[i]`; `OmsStop.panic` models the Rust
out-of-bounds panic. -/
def omsByte (t : List Nat) (i : Nat) : OmsM Nat :=
  match t.get? i with
  | some b => .ok b
  | none => .error .panic

/-- One bit step of the EN 13757 CRC-16 (polynomial `0x3D65`, MSB first). -/
def crc16Bit (c : Nat) : Nat :=
  if c.testBit 15 then ((c <<< 1) ^^^ 0x3D65) &&& 0xFFFF
  else (c <<< 1) &&& 0xFFFF

/-- Iterate `crc16Bit`. -/
def crc16Bits : Nat → Nat → Nat
  | 0, c => c
  | k + 1, c => crc16Bits k (crc16Bit c)

/-- Feed one byte into the EN 13757 CRC-16 state. -/
def crc16Update (c b : Nat) : Nat :=
  crc16Bits 8 (c ^^^ ((b &&& 0xFF) <<< 8))

/-- The EN 13757 CRC-16 as computed by the `crc16` crate's `EN_13757`
digest: polynomial `0x3D65`, MSB first, initial value 0, final complement. -/
def crc16_en13757 (data : List Nat) : Nat :=
  (data.foldl crc16Update 0) ^^^ 0xFFFF

/-- The block loop of `verifiy_crc` (src/metering_oms/utils.rs lines
19-51).  A first block of 10 bytes and further blocks of 16 bytes, each
followed by a two-byte big-endian CRC; a trailing short block covers
whatever remains minus its CRC.  `OmsStop.panic` models the usize
underflow of `telegram.len() - start - 2` (inputs shorter than `start + 2`
in the short-block branch) and the out-of-bounds read of the CRC bytes
when exactly one CRC byte is missing.  The fuel argument only serves
structural termination; `start` grows by at least 12 per iteration, so
`telegram.length + 1` fuel is never exhausted. -/
def verifiy_crc_loop (telegram : List Nat) :
    Nat → Nat → Bool → List Nat → OmsM (List Nat)
  | 0, _, _, _ => .error .panic
  | fuel + 1, start, first_block, result =>
    let len0 := if first_block then 10 else 16
    if telegram.length < start + 17 ∧ telegram.length < start + 2 then .error .panic
    else
      let len := if telegram.length < start + 17 then telegram.length - start - 2 else len0
      let end_of_data_to_crc := start + len
      let block := (telegram.drop start).take len
      let s := crc16_en13757 block
      if telegram.length ≤ end_of_data_to_crc + 1 then .error .panic
      else if s / 256 ≠ telegram.getD end_of_data_to_crc 0 ∨
          s % 256 ≠ telegram.getD (end_of_data_to_crc + 1) 0 then
        .error (.err .CRCMissMatch)
      else
        let start := end_of_data_to_crc + 2
        let result := result ++ block
        if telegram.length = start then .ok result
        else verifiy_crc_loop telegram fuel start false result

/-- `verifiy_crc` from src/metering_oms/utils.rs lines 10-54 (name as in
the source). -/
def verifiy_crc (telegram : List Nat) : OmsM (List Nat) :=
  verifiy_crc_loop telegram (telegram.length + 1) 0 true []

/-- `get_manufacturer` from src/metering_oms/utils.rs lines 57-65: two
packed 5-bit letter codes from bytes 2-3 (little-endian u16), rendered as
three uppercase ASCII letters. -/
def get_manufacturer (telegram : List Nat) : String :=
  let m := ((telegram.getD 3 0) <<< 8) + telegram.getD 2 0
  String.mk [Char.ofNat (((m >>> 10) &&& 0x1F) + 64),
             Char.ofNat (((m >>> 5) &&& 0x1F) + 64),
             Char.ofNat ((m &&& 0x1F) + 64)]

/-- `get_ident_no` from src/metering_oms/utils.rs lines 67-69: bytes 7, 6,
5, 4 as eight lowercase hex digits. -/
def get_ident_no (telegram : List Nat) : String :=
  fmtHex02Lower (telegram.getD 7 0) ++ fmtHex02Lower (telegram.getD 6 0) ++
  fmtHex02Lower (telegram.getD 5 0) ++ fmtHex02Lower (telegram.getD 4 0)

/-- `OmsConfig` from src/config/mod.rs. -/
structure OmsConfig where
  name : String
  id : String
  key : String

/-- `get_meter_config` from src/metering_oms/utils.rs lines 71-81, with
the process-global `oms` configuration section passed explicitly. -/
def get_meter_config (din_addr : String) (conf : List OmsConfig) : Option OmsConfig :=
  conf.find? (fun sensor => sensor.id = din_addr)

/-- `remove_oms_filler` from src/metering_oms/utils.rs lines 83-91: drop
the two `0x2F` verification bytes, then drop the trailing run of `0x2F`
AES filler bytes. -/
def remove_oms_filler (original : List Nat) : List Nat :=
  let ret := original.drop 2
  let element_to_remove := (ret.reverse.takeWhile (fun x => x = 0x2F)).length + 2
  ret.take (original.length - element_to_remove)

/-- `get_device_medium` from src/metering_oms/utils.rs lines 93-112. -/
def get_device_medium (device_type : String) : String :=
  if device_type = "2" then "Electricity"
  else if device_type = "3" then "Gas"
  else if device_type = "4" then "Heat"
  else if device_type = "6" then "Water (hot)"
  else if device_type = "7" then "Water (cold)"
  else if device_type = "8" then "Heat Cost Allocator"
  else if device_type = "A" then "Cooling"
  else if device_type = "B" then "Cooling"
  else if device_type = "C" then "Heat"
  else if device_type = "D" then "Heat / Cooling Combined"
  else if device_type = "15" then "Water (hot)"
  else if device_type = "16" then "Water (cold)"
  else if device_type = "20" then "Breaker / Valve"
  else if device_type = "21" then "Breaker / Valve"
  else "unknown"

/-- Rust `format!("{:02X}", n)`: uppercase hex padded to width 2, used for
the decrypted-payload rendering. -/
def fmtHex02Upper (n : Nat) : String :=
  if n < 16 then String.mk ['0', hexDigitUpper n] else fmtHexUpper n

/-! ## DIF/VIF decoder (src/metering_oms/div_vif_parser.rs)

Handlers return `none` where the Rust code would panic on an out-of-bounds
`Vec` index.  `f64` scaler arithmetic (`base.powi`, the `* scaler`
multiplication) is modelled by exact rationals; every scaler here is a
power of ten and no claim depends on `f64` rounding. -/

/-- The type of DIF data handlers: bytes to skip plus the value read. -/
abbrev DifHandler := List Nat → Nat → Option (Nat × JValue)

/-- `dif_no_data` (div_vif_parser.rs lines 6-8). -/
def dif_no_data : DifHandler := fun _ _ => some (0, .str "")

/-- `dif_read_8bit_int` (lines 10-14). -/
def dif_read_8bit_int : DifHandler := fun start cur_pos =>
  (start.get? cur_pos).map (fun value => (1, .num (value : ℚ)))

/-- `dif_read_16bit_int` (lines 16-20): little-endian u16. -/
def dif_read_16bit_int : DifHandler := fun start cur_pos =>
  match start.get? (cur_pos + 1), start.get? cur_pos with
  | some b1, some b0 => some (2, .num (((b1 <<< 8) ||| b0 : Nat) : ℚ))
  | _, _ => none

/-- `dif_read_24bit_int` (lines 22-26): little-endian 24-bit. -/
def dif_read_24bit_int : DifHandler := fun start cur_pos =>
  match start.get? (cur_pos + 2), start.get? (cur_pos + 1), start.get? cur_pos with
  | some b2, some b1, some b0 =>
    some (3, .num (((b2 <<< 16) ||| (b1 <<< 8) ||| b0 : Nat) : ℚ))
  | _, _, _ => none

/-- `dif_read_32bit_int` (lines 28-32): little-endian u32 (emitted as i64). -/
def dif_read_32bit_int : DifHandler := fun start cur_pos =>
  match start.get? (cur_pos + 3), start.get? (cur_pos + 2),
      start.get? (cur_pos + 1), start.get? cur_pos with
  | some b3, some b2, some b1, some b0 =>
    some (4, .num (((b3 <<< 24) ||| (b2 <<< 16) ||| (b1 <<< 8) ||| b0 : Nat) : ℚ))
  | _, _, _, _ => none

/-- `dif_read_48bit_int` (lines 34-39): little-endian 48-bit. -/
def dif_read_48bit_int : DifHandler := fun start cur_pos =>
  match start.get? (cur_pos + 5), start.get? (cur_pos + 4), start.get? (cur_pos + 3),
      start.get? (cur_pos + 2), start.get? (cur_pos + 1), start.get? cur_pos with
  | some b5, some b4, some b3, some b2, some b1, some b0 =>
    some (6, .num (((b5 <<< 40) ||| (b4 <<< 32) ||| (b3 <<< 24) |||
      (b2 <<< 16) ||| (b1 <<< 8) ||| b0 : Nat) : ℚ))
  | _, _, _, _, _, _ => none

/-- `dif_read_64bit_int` (lines 41-45): little-endian u64. -/
def dif_read_64bit_int : DifHandler := fun start cur_pos =>
  match start.get? (cur_pos + 7), start.get? (cur_pos + 6), start.get? (cur_pos + 5),
      start.get? (cur_pos + 4), start.get? (cur_pos + 3), start.get? (cur_pos + 2),
      start.get? (cur_pos + 1), start.get? cur_pos with
  | some b7, some b6, some b5, some b4, some b3, some b2, some b1, some b0 =>
    some (8, .num (((b7 <<< 56) ||| (b6 <<< 48) ||| (b5 <<< 40) ||| (b4 <<< 32) |||
      (b3 <<< 24) ||| (b2 <<< 16) ||| (b1 <<< 8) ||| b0 : Nat) : ℚ))
  | _, _, _, _, _, _, _, _ => none

/-- `dif_read_8digest_bcd` (lines 47-51): a stub that skips four bytes and
always yields the constant string `"1111 1111"` — it never reads the
payload. -/
def dif_read_8digest_bcd : DifHandler := fun _ _ =>
  some (4, .str "1111 1111")

/-- `bcd_to_integer_sized` (lines 53-64): each byte two decimal digits,
high nibble first, last byte most significant.  `none` models the Rust
index panic on a too-short slice. -/
def bcd_to_integer_sized (start : List Nat) (cur_pos len : Nat) : Option Nat :=
  if cur_pos + len ≤ start.length then
    some (((List.range len).reverse).foldl (fun result i =>
      let byte := start.getD (cur_pos + i) 0
      let high := (byte >>> 4) &&& 0x0F
      let low := byte &&& 0x0F
      result * 100 + (high * 10 + low)) 0)
  else none

/-- `dif_read_12digest_bcd` (lines 66-70): four bytes of BCD. -/
def dif_read_12digest_bcd : DifHandler := fun start cur_pos =>
  (bcd_to_integer_sized start cur_pos 4).map (fun value => (4, .num (value : ℚ)))

/-- `dif_read_32bit_real` (lines 72-74): a stub yielding `0.0`, skipping
four bytes. -/
def dif_read_32bit_real : DifHandler := fun _ _ => some (4, .num 0)

/-- `get_dif_function` (lines 76-108): dispatch on the DIF byte to a size
handler; the `Bool` says whether a VIF follows.  `none` models the index
panic of `start[cur_pos]`. -/
def get_dif_function (start : List Nat) (cur_pos : Nat) :
    Option (Nat × DifHandler × Bool) :=
  (start.get? cur_pos).map (fun dif =>
    if dif = 0x00 then (1, dif_no_data, false)
    else if dif = 0x01 then (1, dif_read_8bit_int, true)
    else if dif = 0x02 then (1, dif_read_16bit_int, true)
    else if dif = 0x03 then (1, dif_read_24bit_int, true)
    else if dif = 0x04 then (1, dif_read_32bit_int, true)
    else if dif = 0x05 then (1, dif_read_32bit_real, true)
    else if dif = 0x06 then (1, dif_read_48bit_int, true)
    else if dif = 0x07 then (1, dif_read_64bit_int, true)
    else if dif = 0x08 then (1, dif_no_data, false)
    else if dif = 0x0C then (1, dif_read_12digest_bcd, true)
    else if dif = 0xF0 then (1, dif_read_8digest_bcd, true)
    else if dif = 0x2F then (1, dif_no_data, false)
    else (1, dif_no_data, true))

/-- `VifData` (lines 112-118); the f64 scaler is carried as an exact
rational. -/
structure VifData where
  vif : Nat
  fildname : String
  scaler : ℚ
  unit : String
  vif_function : Option (Nat → JValue → JValue)

/-- `10.0f64.powi z` for the power-of-ten scalers, as an exact rational. -/
def qpow10 (z : ℤ) : ℚ := (10 : ℚ) ^ z

/-- `serde_json::Number::as_i64` on a rational-carried number: an integer
within the i64 range. -/
def ratAsI64 (q : ℚ) : Option ℤ :=
  if q.den = 1 ∧ -(2 ^ 63) ≤ q.num ∧ q.num < 2 ^ 63 then some q.num else none

/-- Rust `as u32` on an i64: wrap modulo `2 ^ 32`. -/
def intAsU32 (t : ℤ) : Nat := (t % (2 ^ 32 : ℤ)).toNat

/-- Rust `as u64` on an i64: wrap modulo `2 ^ 64`. -/
def intAsU64 (t : ℤ) : Nat := (t % (2 ^ 64 : ℤ)).toNat

/-- `parse_time_point` (lines 120-179).  Bit extractions follow Rust
operator precedence, under which shifts bind tighter than `&`: in the
type G branch the source's `time & 0xE0 >> 5` is `time & (0xE0 >> 5)` and
`time & 0x60 >> 5` is `time & (0x60 >> 5)`. -/
def parse_time_point (vif : Nat) (data : JValue) : JValue :=
  match data with
  | .num v =>
    match ratAsI64 v with
    | none => .str "unparseable not i64"
    | some t =>
      let time := intAsU32 t
      let is_type_f := vif &&& 0x1
      if is_type_f = 1 then
        let min := time &&& 0x3F
        let hour := (time >>> 8) &&& 0x1F
        let day := (time >>> 16) &&& 0x1F
        let month := (time >>> 24) &&& 0x0F
        let year := (((time >>> 16) &&& 0xE0) >>> 5) ||| (((time >>> 24) &&& 0xF0) >>> 1)
        let hundred_year := (time &&& 0x60) >>> 5
        let hundred_year := if hundred_year = 0 ∧ year ≤ 80 then 1 else hundred_year
        let year := 1900 + 100 * hundred_year + year
        .str (fmtDec02 day ++ "." ++ fmtDec02 month ++ "." ++ fmtDec04 year ++ " " ++
          fmtDec02 hour ++ ":" ++ fmtDec02 min)
      else
        let day := time &&& 0x1F
        let month := (time >>> 8) &&& 0x0F
        let year := (time &&& (0xE0 >>> 5)) ||| (((time >>> 16) &&& 0xF0) >>> 1)
        let hundred_year := time &&& (0x60 >>> 5)
        let hundred_year := if hundred_year = 0 ∧ year ≤ 80 then 1 else hundred_year
        let year := 1900 + 100 * hundred_year + year
        .str (fmtDec02 day ++ "." ++ fmtDec02 month ++ "." ++ fmtDec04 year)
  | _ => .str "unparseable not a number"

/-- `parse_on_time` (lines 181-200): the low two VIF bits select seconds,
minutes, hours or days; the value is converted to seconds. -/
def parse_on_time (vif : Nat) (data : JValue) : JValue :=
  match data with
  | .num v =>
    match ratAsI64 v with
    | none => .str "unparseable"
    | some time =>
      .num (((if vif &&& 0x3 = 0b00 then time
        else if vif &&& 0x3 = 0b01 then time * 60
        else if vif &&& 0x3 = 0b10 then time * 60 * 60
        else time * 24 * 60 * 60) : ℤ) : ℚ)
  | _ => .str "unparseable"

/-- `vif_handle_binary` (lines 202-215): render the integer as uppercase
hexadecimal. -/
def vif_handle_binary (_vif : Nat) (data : JValue) : JValue :=
  match data with
  | .num v =>
    match ratAsI64 v with
    | none => .str "unparseable"
    | some d => .str (fmtHexUpper (intAsU64 d))
  | _ => .str "unparseable"

/-- `get_vif_extension_fb` (lines 217-266): the `0xFB` extension table.
The matched value is the low seven bits of the byte after the `0xFB`; the
unmatched default advances only one byte.  `none` models the index panic
of `start[cur_pos + 1]`. -/
def get_vif_extension_fb (start : List Nat) (cur_pos : Nat) :
    Option (Nat × VifData) :=
  (start.get? (cur_pos + 1)).map (fun vif =>
    let v := vif &&& 0x7F
    if v ≤ 0b00000001 then
      (2, ⟨vif, "energy", qpow10 (((vif &&& 0x1 : Nat) : ℤ) - 1), "MWh", none⟩)
    else if 0b00001000 ≤ v ∧ v ≤ 0b00001001 then
      (2, ⟨vif, "energy", qpow10 (((vif &&& 0x1 : Nat) : ℤ) - 1), "GJ", none⟩)
    else if 0b00010000 ≤ v ∧ v ≤ 0b00010001 then
      (2, ⟨vif, "volume", qpow10 (((vif &&& 0x1 : Nat) : ℤ) + 2), "m³", none⟩)
    else if 0b00011000 ≤ v ∧ v ≤ 0b00011001 then
      (2, ⟨vif, "mass", qpow10 (((vif &&& 0x1 : Nat) : ℤ) + 2), "t", none⟩)
    else if v = 0b00100001 then (2, ⟨vif, "volume", 1 / 10, "feet³", none⟩)
    else if v = 0b00100010 then (2, ⟨vif, "volume", 1 / 10, "american_gallon", none⟩)
    else if v = 0b00100011 then (2, ⟨vif, "volume", 1, "american_gallon", none⟩)
    else if v = 0b00100100 then (2, ⟨vif, "volume_flow", 1 / 1000, "american_gallon/min", none⟩)
    else if v = 0b00100101 then (2, ⟨vif, "volume_flow", 1, "american_gallon/min", none⟩)
    else if v = 0b00100110 then (2, ⟨vif, "volume_flow", 1, "american_gallon/h", none⟩)
    else if 0b00101000 ≤ v ∧ v ≤ 0b00101001 then
      (2, ⟨vif, "power", qpow10 (((vif &&& 0x1 : Nat) : ℤ) - 1), "MW", none⟩)
    else if 0b00110000 ≤ v ∧ v ≤ 0b00110001 then
      (2, ⟨vif, "power", qpow10 (((vif &&& 0x1 : Nat) : ℤ) - 1), "GJ/h", none⟩)
    else if 0b01011000 ≤ v ∧ v ≤ 0b01011011 then
      (2, ⟨vif, "flow_temperature", qpow10 (((vif &&& 0x3 : Nat) : ℤ) - 3), "°F", none⟩)
    else if 0b01011100 ≤ v ∧ v ≤ 0b01011111 then
      (2, ⟨vif, "return_temperature", qpow10 (((vif &&& 0x3 : Nat) : ℤ) - 3), "°F", none⟩)
    else if 0b01100000 ≤ v ∧ v ≤ 0b01100011 then
      (2, ⟨vif, "temperature_difference", qpow10 (((vif &&& 0x3 : Nat) : ℤ) - 3), "°F", none⟩)
    else if 0b01100100 ≤ v ∧ v ≤ 0b01100111 then
      (2, ⟨vif, "external_temperature", qpow10 (((vif &&& 0x3 : Nat) : ℤ) - 3), "°F", none⟩)
    else if 0b01110000 ≤ v ∧ v ≤ 0b01110011 then
      (2, ⟨vif, "cold_warm_temperature_limit", qpow10 (((vif &&& 0x3 : Nat) : ℤ) - 3), "°F", none⟩)
    else if 0b01110100 ≤ v ∧ v ≤ 0b01110111 then
      (2, ⟨vif, "cold_warm_temperature_limit", qpow10 (((vif &&& 0x3 : Nat) : ℤ) - 3), "°C", none⟩)
    else if 0b01111000 ≤ v ∧ v ≤ 0b01111111 then
      (2, ⟨vif, "cumul_count_max_power", qpow10 (((vif &&& 0x7 : Nat) : ℤ) - 3), "W", none⟩)
    else (1, ⟨vif, "unknown_at_" ++ toString cur_pos, 1, "", none⟩))

/-- `get_vif_extension_fd` (lines 268-368): the `0xFD` extension table.
`none` models the index panic of `start[cur_pos + 1]`. -/
def get_vif_extension_fd (start : List Nat) (cur_pos : Nat) :
    Option (Nat × VifData) :=
  (start.get? (cur_pos + 1)).map (fun vif =>
    let v := vif &&& 0x7F
    if v ≤ 0b00000011 then
      (2, ⟨vif, "credit", qpow10 (((vif &&& 0x3 : Nat) : ℤ) - 3), "currency_units", none⟩)
    else if 0b00000100 ≤ v ∧ v ≤ 0b00000111 then
      (2, ⟨vif, "debit", qpow10 (((vif &&& 0x3 : Nat) : ℤ) - 3), "currency_units", none⟩)
    else if v = 0b00001000 then (2, ⟨vif, "access_number", 1, "count", none⟩)
    else if v = 0b00001001 then (2, ⟨vif, "medium", 1, "", none⟩)
    else if v = 0b00001010 then (2, ⟨vif, "manufacturer", 1, "", none⟩)
    else if v = 0b00001011 then (2, ⟨vif, "parameter_set_identification", 1, "", none⟩)
    else if v = 0b00001100 then (2, ⟨vif, "model_version", 1, "", none⟩)
    else if v = 0b00001101 then (2, ⟨vif, "hardware_version", 1, "", none⟩)
    else if v = 0b00001110 then (2, ⟨vif, "firmware_version", 1, "", none⟩)
    else if v = 0b00001111 then (2, ⟨vif, "software_version", 1, "", none⟩)
    else if v = 0b00010000 then (2, ⟨vif, "customer_location", 1, "", none⟩)
    else if v = 0b00010001 then (2, ⟨vif, "customer", 1, "", none⟩)
    else if v = 0b00010010 then (2, ⟨vif, "access_code_user", 1, "", none⟩)
    else if v = 0b00010011 then (2, ⟨vif, "access_code_operator", 1, "", none⟩)
    else if v = 0b00010100 then (2, ⟨vif, "access_code_system_operator", 1, "", none⟩)
    else if v = 0b00010101 then (2, ⟨vif, "access_code_developer", 1, "", none⟩)
    else if v = 0b00010110 then (2, ⟨vif, "password", 1, "", none⟩)
    else if v = 0b00010111 then (2, ⟨vif, "error_flags", 1, "", some vif_handle_binary⟩)
    else if v = 0b00011000 then (2, ⟨vif, "error_mask", 1, "", none⟩)
    else if v = 0b00011001 then (2, ⟨vif, "reserved_0x19", 1, "", none⟩)
    else if v = 0b00011010 then (2, ⟨vif, "digital_output", 1, "", some vif_handle_binary⟩)
    else if v = 0b00011011 then (2, ⟨vif, "digital_input", 1, "", some vif_handle_binary⟩)
    else if v = 0b00011100 then (2, ⟨vif, "baudrate", 1, "Baud", none⟩)
    else if v = 0b00011101 then (2, ⟨vif, "response_delay_time", 1, "bittimes", none⟩)
    else if v = 0b00011110 then (2, ⟨vif, "retry", 1, "", none⟩)
    else if v = 0b00011111 then (2, ⟨vif, "reserved_0x1f", 1, "", none⟩)
    else if v = 0b00100000 then (2, ⟨vif, "first_storage_for_cyclic_storage", 1, "", none⟩)
    else if v = 0b00100001 then (2, ⟨vif, "last_storage_for_cyclic_storage", 1, "", none⟩)
    else if v = 0b00100010 then (2, ⟨vif, "size_of_storage_block", 1, "", none⟩)
    else if v = 0b00100011 then (2, ⟨vif, "reserved_0x23", 1, "", none⟩)
    else if 0b00100100 ≤ v ∧ v ≤ 0b00100111 then (2, ⟨vif, "storage_interval", 1, "time", none⟩)
    else if v = 0b00101000 then (2, ⟨vif, "storage_interval_months", 1, "months", none⟩)
    else if v = 0b00101001 then (2, ⟨vif, "storage_interval_years", 1, "years", none⟩)
    else if v = 0b00101010 then (2, ⟨vif, "reserved_0x2a", 1, "", none⟩)
    else if v = 0b00101011 then (2, ⟨vif, "reserved_0x2b", 1, "", none⟩)
    else if 0b00101100 ≤ v ∧ v ≤ 0b00101111 then (2, ⟨vif, "duration_since_last_readout", 1, "time", none⟩)
    else if v = 0b00110000 then (2, ⟨vif, "start_of_tariff", 1, "datetime", none⟩)
    else if 0b00110001 ≤ v ∧ v ≤ 0b00110011 then (2, ⟨vif, "duration_of_tariff", 1, "time", none⟩)
    else if 0b00110100 ≤ v ∧ v ≤ 0b00110111 then (2, ⟨vif, "period_of_tariff", 1, "time", none⟩)
    else if v = 0b00111000 then (2, ⟨vif, "period_of_tariff_months", 1, "months", none⟩)
    else if v = 0b00111001 then (2, ⟨vif, "period_of_tariff_years", 1, "years", none⟩)
    else if v = 0b00111010 then (2, ⟨vif, "dimensionless", 1, "", none⟩)
    else if v = 0b00111011 then (2, ⟨vif, "reserved_0x3b", 1, "", none⟩)
    else if 0b00111100 ≤ v ∧ v ≤ 0b00111111 then (2, ⟨vif, "reserved_0x3c_0x3f", 1, "", none⟩)
    else if 0b01000000 ≤ v ∧ v ≤ 0b01001111 then
      (2, ⟨vif, "voltage", qpow10 (((vif &&& 0xF : Nat) : ℤ) - 9), "V", none⟩)
    else if 0b01010000 ≤ v ∧ v ≤ 0b01011111 then
      (2, ⟨vif, "current", qpow10 (((vif &&& 0xF : Nat) : ℤ) - 12), "A", none⟩)
    else (2, ⟨vif, "unknown_at_" ++ toString cur_pos, 1, "", none⟩))

/-- `get_vif_function` (lines 370-428): dispatch to the `0xFB`/`0xFD`
extension tables, else the main VIF table on the low seven bits.  The
on-time row matches only `0b00100000` (the source range is
`0b00100000..=0b00100000`), so VIFs `0x21`-`0x23` fall to the default
row.  The averaging-duration row's upper bound is the source's literal
`01110011`, which lacks the `0b` prefix and is the decimal number
1110011, so that row also captures the actuality-duration VIFs.  `none`
models the index panic of `start[cur_pos]`. -/
def get_vif_function (start : List Nat) (cur_pos : Nat) :
    Option (Nat × VifData) :=
  match start.get? cur_pos with
  | none => none
  | some vif =>
    if vif = 0xFB then get_vif_extension_fb start cur_pos
    else if vif = 0xFD then get_vif_extension_fd start cur_pos
    else
      let v := vif &&& 0x7F
      some (
        if v ≤ 0b00000111 then
          (1, ⟨vif, "energy", qpow10 (((vif &&& 0x7 : Nat) : ℤ) - 3), "Wh", none⟩)
        else if 0b00001000 ≤ v ∧ v ≤ 0b00001111 then
          (1, ⟨vif, "energy", qpow10 (((vif &&& 0x7 : Nat) : ℤ) - 3), "J", none⟩)
        else if 0b00010000 ≤ v ∧ v ≤ 0b00010111 then
          (1, ⟨vif, "volume", qpow10 (((vif &&& 0x7 : Nat) : ℤ) - 6), "m³", none⟩)
        else if 0b00011000 ≤ v ∧ v ≤ 0b00011111 then
          (1, ⟨vif, "mass", qpow10 (((vif &&& 0x7 : Nat) : ℤ) - 3), "kg", none⟩)
        else if v = 0b00100000 then
          (1, ⟨vif, "on_time", 0, "s", some parse_on_time⟩)
        else if 0b00100100 ≤ v ∧ v ≤ 0b00100111 then
          (1, ⟨vif, "operation_time", 0, "s", some parse_on_time⟩)
        else if 0b00101000 ≤ v ∧ v ≤ 0b00101111 then
          (1, ⟨vif, "power", qpow10 (((vif &&& 0x7 : Nat) : ℤ) - 3), "W", none⟩)
        else if 0b00110000 ≤ v ∧ v ≤ 0b00110111 then
          (1, ⟨vif, "power", qpow10 ((vif &&& 0x7 : Nat) : ℤ), "J/h", none⟩)
        else if 0b00111000 ≤ v ∧ v ≤ 0b00111111 then
          (1, ⟨vif, "volume_flow", qpow10 (((vif &&& 0x7 : Nat) : ℤ) - 6), "m³/h", none⟩)
        else if 0b01000000 ≤ v ∧ v ≤ 0b01000111 then
          (1, ⟨vif, "volume_flow_ext", qpow10 (((vif &&& 0x7 : Nat) : ℤ) - 7), "m³/min", none⟩)
        else if 0b01001000 ≤ v ∧ v ≤ 0b01001111 then
          (1, ⟨vif, "volume_flow_ext", qpow10 (((vif &&& 0x7 : Nat) : ℤ) - 9), "m³/s", none⟩)
        else if 0b01010000 ≤ v ∧ v ≤ 0b01010111 then
          (1, ⟨vif, "mass_flow", qpow10 (((vif &&& 0x7 : Nat) : ℤ) - 3), "kg/h", none⟩)
        else if 0b01011000 ≤ v ∧ v ≤ 0b01011011 then
          (1, ⟨vif, "flow_temperature", qpow10 (((vif &&& 0x3 : Nat) : ℤ) - 3), "°C", none⟩)
        else if 0b01011100 ≤ v ∧ v ≤ 0b01011111 then
          (1, ⟨vif, "return_temperature", qpow10 (((vif &&& 0x3 : Nat) : ℤ) - 3), "°C", none⟩)
        else if 0b01100000 ≤ v ∧ v ≤ 0b01100011 then
          (1, ⟨vif, "temperature_difference", qpow10 (((vif &&& 0x3 : Nat) : ℤ) - 3), "K", none⟩)
        else if 0b01100100 ≤ v ∧ v ≤ 0b01100111 then
          (1, ⟨vif, "external_temperature", qpow10 (((vif &&& 0x3 : Nat) : ℤ) - 3), "°C", none⟩)
        else if 0b01101000 ≤ v ∧ v ≤ 0b01101011 then
          (1, ⟨vif, "pressure", qpow10 (((vif &&& 0x3 : Nat) : ℤ) - 3), "bar", none⟩)
        else if 0b01101100 ≤ v ∧ v ≤ 0b01101101 then
          (1, ⟨vif, "time_of_readout", 0, "", some parse_time_point⟩)
        else if v = 0b01101110 then
          (1, ⟨vif, "hca_units", 1, "", none⟩)
        else if 0b01110000 ≤ v ∧ v ≤ 1110011 then
          (1, ⟨vif, "averaging_duration", 0, "s", some parse_on_time⟩)
        else if 0b01110100 ≤ v ∧ v ≤ 1110111 then
          (1, ⟨vif, "actuality_duration", 0, "s", some parse_on_time⟩)
        else
          (1, ⟨vif, "unknown_at_" ++ toString cur_pos ++ "_" ++ fmtHexLower vif, 1,
            "unknown", none⟩))

/-- The record loop of `parse_payload` (lines 430-464).  The fuel argument
only serves structural termination: every iteration advances `cur_pos` by
at least one, so `payload.length + 1` fuel is never exhausted; `none`
models a Rust index panic inside the handlers or table lookups. -/
def parse_payload_loop (payload : List Nat) :
    Nat → Nat → JMap → Option JMap
  | 0, _, _ => none
  | fuel + 1, cur_pos, ret =>
    if cur_pos < payload.length then
      match get_dif_function payload cur_pos with
      | none => none
      | some (offset, handler, check_further) =>
        let cur_pos := cur_pos + offset
        if check_further then
          match get_vif_function payload cur_pos with
          | none => none
          | some (offset2, vif_data) =>
            let cur_pos := cur_pos + offset2
            match handler payload cur_pos with
            | none => none
            | some (offset3, value) =>
              let cur_pos := cur_pos + offset3
              let value :=
                match vif_data.vif_function with
                | some converter => converter vif_data.vif value
                | none =>
                  match value with
                  | .num q => if vif_data.scaler ≠ 1 then .num (q * vif_data.scaler) else .num q
                  | _ => value
              let ret := jmapInsert ret vif_data.fildname value
              let ret := jmapInsert ret (vif_data.fildname ++ "_unit") (.str vif_data.unit)
              parse_payload_loop payload fuel cur_pos ret
        else parse_payload_loop payload fuel cur_pos ret
    else some ret

/-- `parse_payload` (lines 430-464): walk the payload record by record. -/
def parse_payload (payload : List Nat) : Option JMap :=
  parse_payload_loop payload (payload.length + 1) 0 []

/-- The shared tail of `parse_oms_telegram` (src/metering_oms/mod.rs lines
228-235): insert the uppercase-hex rendering of the decrypted payload,
decode it with the DIF/VIF parser, merge, and attach the `proto`
sub-object.  Only the security-mode arms reach this point. -/
def omsEmitRecord (dec_data : List Nat) (meter_name : String)
    (protocol_map : JMap) : OmsM MeteringData :=
  let payload_hex := (dec_data.map fmtHex02Upper).foldl (fun a s => a ++ s) ""
  let mv := jmapInsert [] "payload" (.str payload_hex)
  match parse_payload dec_data with
  | none => .error .panic
  | some parsed_data =>
    let mv := jmapAppend mv parsed_data
    let mv := jmapInsert mv "proto" (.obj protocol_map)
    .ok { meter_name := meter_name, protocol := .OMS, metered_values := mv }

/-- `parse_oms_telegram` from src/metering_oms/mod.rs lines 91-236.  The
process-global `oms` configuration section and the AES-128-CBC decryption
primitive (`utils::decrypt_mode5`, which wraps the external `aes`/`cbc`
crates) are passed explicitly; `decrypt_mode5 telegram access_no 15 key`
is the decryption of `telegram[15..]` under the mode-5 IV.  Bytes 0-9 are
read with `getD` because the length checks have already established they
exist; bytes 10-14 go through `omsByte` because the source indexes them
unchecked. -/
def parse_oms_telegram (telegram : List Nat) (with_crc : Bool)
    (oms_conf : List OmsConfig)
    (decrypt_mode5 : List Nat → Nat → Nat → List Nat → List Nat) :
    OmsM MeteringData :=
  let tpl_no_header_ids : List Nat := [0x66, 0x70, 0x71]
  let tpl_short_header_ids : List Nat :=
    [0x67, 0x6E, 0x74, 0x7A, 0x7D, 0x7F, 0x88, 0x9E, 0xC1, 0xC4]
  let tpl_long_header_ids : List Nat :=
    [0x68, 0x6F, 0x72, 0x75, 0x7C, 0x7E, 0x9F, 0xC2, 0xC5]
  match if with_crc then verifiy_crc telegram else .ok telegram with
  | .error s => .error s
  | .ok telegram =>
  let telegram_len := telegram.length
  if telegram_len < 10 then .error (.err .TelegramTooShort)
  else if telegram_len > 255 then .error (.err .TelegramTooLong)
  else if telegram.getD 0 0 > telegram_len then .error (.err .TelegramTooShort)
  else if telegram.getD 1 0 ≠ 0x44 then .error (.err .UnsupportedTelegramType)
  else
  let protocol_map : JMap :=
    jmapInsert (jmapInsert (jmapInsert [] "type" (.str "oms"))
      "crc_verified" (.jbool with_crc)) "c_field" (.str "SND_NR")
  let manfucturer := get_manufacturer telegram
  let protocol_map := jmapInsert protocol_map "manufacturer" (.str manfucturer)
  let ident_no := get_ident_no telegram
  let protocol_map := jmapInsert protocol_map "device_number" (.str ident_no)
  let version := fmtHex02Lower (telegram.getD 8 0)
  let protocol_map := jmapInsert protocol_map "version_number" (.str version)
  let device_type := fmtHexLower (telegram.getD 9 0)
  let protocol_map :=
    jmapInsert protocol_map "device_medium" (.str (get_device_medium device_type))
  let din_addr := device_type ++ manfucturer ++ version ++ ident_no
  let protocol_map := jmapInsert protocol_map "din_addr_sender" (.str din_addr)
  let protocol_map := jmapInsert protocol_map "din_addr_meter" (.str din_addr)
  match get_meter_config din_addr oms_conf with
  | none => .error (.err .SensorNotConfigured)
  | some config =>
  match omsByte telegram 10 with
  | .error s => .error s
  | .ok ci =>
  if tpl_short_header_ids.contains ci then
    let protocol_map := jmapInsert protocol_map "ci_field" (.str "short")
    match omsByte telegram 11, omsByte telegram 12,
        omsByte telegram 13, omsByte telegram 14 with
    | .ok access_no, .ok status, .ok cf_lo, .ok cf_hi =>
      let config_field := (cf_hi <<< 8) ||| cf_lo
      let statusResult : OmsM JMap :=
        match status &&& 0x03 with
        | 0 => .ok (jmapInsert protocol_map "status" (.str "ok"))
        | 1 => .ok (jmapInsert protocol_map "status" (.str "application busy"))
        | 2 => .ok (jmapInsert protocol_map "status" (.str "application error"))
        | 3 => .ok (jmapInsert protocol_map "status" (.str "alarm"))
        | _ => .error .panic
      match statusResult with
      | .error s => .error s
      | .ok protocol_map =>
      let protocol_map :=
        jmapInsert protocol_map "transmission_counter" (.num (access_no : ℚ))
      let security_mode := (config_field >>> 8) &&& 0x1F
      if security_mode = 5 then
        let protocol_map :=
          jmapInsert protocol_map "security_mode" (.num (security_mode : ℚ))
        let key := (hexDecode config.key.toList).getD []
        let dec_data := decrypt_mode5 telegram access_no 15 key
        if dec_data.length < 2 ∨ (dec_data.getD 0 0 ≠ 0x2f ∨ dec_data.getD 1 0 ≠ 0x2F) then
          .error (.err .DecryptionFailed)
        else omsEmitRecord (remove_oms_filler dec_data) config.name protocol_map
      else if security_mode = 7 then
        omsEmitRecord [] "" protocol_map
      else .error (.err .SecurityModeNotSupported)
    | _, _, _, _ => .error .panic
  else if tpl_long_header_ids.contains ci then
    .error .panic
  else if tpl_no_header_ids.contains ci then
    .error (.err .WiredProtocolNotSupported)
  else .error (.err .SecurityCiTypeNotSupported)

/-- The security mode a telegram's transport layer carries, as
`parse_oms_telegram` computes it (mod.rs lines 176 and 201): bits 8..12 of
the little-endian configuration field at bytes 13-14. -/
def oms_security_mode (telegram : List Nat) : Nat :=
  (((telegram.getD 14 0 <<< 8) ||| telegram.getD 13 0) >>> 8) &&& 0x1F

/-- The DIN 43863-5 address `parse_oms_telegram` forms on mod.rs line 149:
`<medium><manufacturer><version><serial>`. -/
def oms_din_addr (telegram : List Nat) : String :=
  fmtHexLower (telegram.getD 9 0) ++ get_manufacturer telegram ++
  fmtHex02Lower (telegram.getD 8 0) ++ get_ident_no telegram

/-- `true` when an OMS parse emitted a record. -/
def omsParseOk (r : OmsM MeteringData) : Bool :=
  match r with
  | .ok _ => true
  | _ => false

/-- `true` when an IEC 62056-21 parse emitted a record. -/
def iecParseOk (r : Except Iec62056ParseError MeteringData) : Bool :=
  match r with
  | .ok _ => true
  | _ => false

/-! # Theorems

Shared lemmas first, then one theorem per claim (with witness or
counterexample theorems where the claim's status requires them). -/

/-- `rsplit` always yields at least one fragment, like Rust `split`. -/
theorem rsplit_ne_nil (c : Char) (s : List Char) : rsplit c s ≠ [] := by
  induction s with
  | nil => simp [rsplit]
  | cons x xs ih =>
    unfold rsplit
    by_cases h : x = c
    · simp [h]
    · simp only [if_neg h]
      cases hr : rsplit c xs with
      | nil => simp
      | cons a t => simp

/-- `rsplit` yields one more fragment than there are separators. -/
theorem rsplit_length (c : Char) (s : List Char) :
    (rsplit c s).length = countChar c s + 1 := by
  induction s with
  | nil => simp [rsplit, countChar]
  | cons x xs ih =>
    unfold rsplit countChar
    by_cases h : x = c
    · simp only [if_pos h, List.length_cons]
      unfold countChar at ih
      simp [h, ih]
    · simp only [if_neg h]
      cases hr : rsplit c xs with
      | nil => exact absurd hr (rsplit_ne_nil c xs)
      | cons a t =>
        unfold countChar at ih
        rw [hr] at ih
        simp only [List.length_cons] at ih ⊢
        simp [List.filter, h]
        omega

/-- `parse_identification_line` only ever produces `MissingIdentification`,
`InvalidFormat`, or a parsed identification. -/
theorem parse_identification_line_cases (l : List Char) :
    parse_identification_line l = .error .MissingIdentification ∨
    parse_identification_line l = .error .InvalidFormat ∨
    ∃ d, parse_identification_line l = .ok d := by
  unfold parse_identification_line
  split
  · exact .inl rfl
  · by_cases h3 : 3 ≤ l.length - 1
    · exact .inr (.inr ⟨⟨String.mk (l.tail.take 3), String.mk l.tail,
        determine_protocol_mode l.tail, String.mk (l.tail.take 3 ++ l.tail)⟩, by simp [h3]⟩)
    · exact .inr (.inl (by simp [h3]))

/-- C1 counterexample: a well-formed OMS telegram whose configuration field
carries security mode 7 — not mode 5 — is not rejected with
`SecurityModeNotSupported`; the empty `7 => {}` match arm falls through and
`parse_oms_telegram` emits a record with an empty payload and an unset
meter name.  The telegram reuses the Annex-N DLL header (device
`3ELS3312345678`), CI `0x7A`, and configuration field `0x0700`. -/
theorem oms_mode7_telegram_accepted :
    oms_security_mode [0x0F, 0x44, 0x93, 0x15, 0x78, 0x56, 0x34, 0x12, 0x33, 0x03,
      0x7A, 0x2A, 0x00, 0x00, 0x07] = 7 ∧
    parse_oms_telegram
      [0x0F, 0x44, 0x93, 0x15, 0x78, 0x56, 0x34, 0x12, 0x33, 0x03,
       0x7A, 0x2A, 0x00, 0x00, 0x07] false
      [⟨"meter1", "3ELS3312345678", "000102030405060708090A0B0C0D0E11"⟩]
      (fun _ _ _ _ => []) =
    .ok { meter_name := "", protocol := .OMS,
          metered_values := [
            ("payload", .str ""),
            ("proto", .obj [
              ("type", .str "oms"),
              ("crc_verified", .jbool false),
              ("c_field", .str "SND_NR"),
              ("manufacturer", .str "ELS"),
              ("device_number", .str "12345678"),
              ("version_number", .str "33"),
              ("device_medium", .str "Gas"),
              ("din_addr_sender", .str "3ELS3312345678"),
              ("din_addr_meter", .str "3ELS3312345678"),
              ("ci_field", .str "short"),
              ("status", .str "ok"),
              ("transmission_counter", .num ((0x2A : ℕ) : ℚ))])] } :=
  ⟨by decide, rfl⟩

/-- C1 (corrected): for every OMS telegram that reaches the transport
layer with a short-header CI and whose configuration field carries a
security mode other than 5 **and other than 7**, `parse_oms_telegram`
fails with `SecurityModeNotSupported` and no record is emitted; mode-7
telegrams are not rejected (see the counterexample).  The telegram is
presented as fifteen explicit header bytes plus a rest to fix the shape
the transport layer reads. -/
theorem oms_nonstandard_security_mode_rejected
    (b0 b1 b2 b3 b4 b5 b6 b7 b8 b9 b10 b11 b12 b13 b14 : Nat) (rest : List Nat)
    (cfg : List OmsConfig) (c : OmsConfig)
    (dec : List Nat → Nat → Nat → List Nat → List Nat)
    (hlen : (b0 :: b1 :: b2 :: b3 :: b4 :: b5 :: b6 :: b7 :: b8 :: b9 ::
      b10 :: b11 :: b12 :: b13 :: b14 :: rest).length ≤ 255)
    (hL : b0 ≤ 15 + rest.length)
    (hC : b1 = 0x44)
    (hcfg : get_meter_config (oms_din_addr (b0 :: b1 :: b2 :: b3 :: b4 :: b5 :: b6 :: b7 ::
      b8 :: b9 :: b10 :: b11 :: b12 :: b13 :: b14 :: rest)) cfg = some c)
    (hci : b10 ∈ [0x67, 0x6E, 0x74, 0x7A, 0x7D, 0x7F, 0x88, 0x9E, 0xC1, 0xC4])
    (hm5 : oms_security_mode (b0 :: b1 :: b2 :: b3 :: b4 :: b5 :: b6 :: b7 :: b8 :: b9 ::
      b10 :: b11 :: b12 :: b13 :: b14 :: rest) ≠ 5)
    (hm7 : oms_security_mode (b0 :: b1 :: b2 :: b3 :: b4 :: b5 :: b6 :: b7 :: b8 :: b9 ::
      b10 :: b11 :: b12 :: b13 :: b14 :: rest) ≠ 7) :
    parse_oms_telegram (b0 :: b1 :: b2 :: b3 :: b4 :: b5 :: b6 :: b7 :: b8 :: b9 ::
      b10 :: b11 :: b12 :: b13 :: b14 :: rest) false cfg dec =
    .error (.err .SecurityModeNotSupported) := by
  subst hC
  have hm5' : ((b14 <<< 8) ||| b13) >>> 8 &&& 31 ≠ 5 := hm5
  have hm7' : ((b14 <<< 8) ||| b13) >>> 8 &&& 31 ≠ 7 := hm7
  have hcfg' : get_meter_config (fmtHexLower b9 ++
      get_manufacturer (b0 :: 0x44 :: b2 :: b3 :: b4 :: b5 :: b6 :: b7 :: b8 :: b9 ::
        b10 :: b11 :: b12 :: b13 :: b14 :: rest) ++ fmtHex02Lower b8 ++
      get_ident_no (b0 :: 0x44 :: b2 :: b3 :: b4 :: b5 :: b6 :: b7 :: b8 :: b9 ::
        b10 :: b11 :: b12 :: b13 :: b14 :: rest)) cfg = some c := hcfg
  have h10 : ¬((b0 :: 0x44 :: b2 :: b3 :: b4 :: b5 :: b6 :: b7 :: b8 :: b9 ::
      b10 :: b11 :: b12 :: b13 :: b14 :: rest).length < 10) := by
    simp only [List.length_cons]; omega
  have h255 : ¬((b0 :: 0x44 :: b2 :: b3 :: b4 :: b5 :: b6 :: b7 :: b8 :: b9 ::
      b10 :: b11 :: b12 :: b13 :: b14 :: rest).length > 255) := by
    simp only [List.length_cons] at hlen ⊢; omega
  have hb0 : ¬((b0 :: 0x44 :: b2 :: b3 :: b4 :: b5 :: b6 :: b7 :: b8 :: b9 ::
      b10 :: b11 :: b12 :: b13 :: b14 :: rest).length < b0) := by
    simp only [List.length_cons]; omega
  have hcont : ([0x67, 0x6E, 0x74, 0x7A, 0x7D, 0x7F, 0x88, 0x9E, 0xC1, 0xC4] :
      List Nat).contains b10 = true := by simpa using hci
  have hs3 : b12 &&& 3 ≤ 3 := Nat.and_le_right
  unfold parse_oms_telegram
  simp only [Bool.false_eq_true, if_false, gt_iff_lt]
  simp [h10, h255, hb0, hcfg', hcont, omsByte, hm5', hm7']
  simp only [List.length_cons] at hlen
  rcases h03 : b12 &&& 3 with _ | _ | _ | n
  · simp [h03, hm5', hm7']
    rw [if_neg (by omega), if_neg (by omega), if_neg (by omega),
      if_pos (by simpa using hci)]
  · simp [h03, hm5', hm7']
    rw [if_neg (by omega), if_neg (by omega), if_neg (by omega),
      if_pos (by simpa using hci)]
  · simp [h03, hm5', hm7']
    rw [if_neg (by omega), if_neg (by omega), if_neg (by omega),
      if_pos (by simpa using hci)]
  · rcases n with _ | m
    · simp [h03, hm5', hm7']
      rw [if_neg (by omega), if_neg (by omega), if_neg (by omega),
        if_pos (by simpa using hci)]
    · omega

/-- Witness for the C1 theorem at a concrete mode-0 telegram. -/
theorem oms_nonstandard_security_mode_rejected_witness :
    parse_oms_telegram [0x0F, 0x44, 0x93, 0x15, 0x78, 0x56, 0x34, 0x12, 0x33, 0x03,
      0x7A, 0x2A, 0x00, 0x00, 0x00] false
      [⟨"meter1", "3ELS3312345678", "000102030405060708090A0B0C0D0E11"⟩]
      (fun _ _ _ _ => []) =
    .error (.err .SecurityModeNotSupported) :=
  oms_nonstandard_security_mode_rejected
    0x0F 0x44 0x93 0x15 0x78 0x56 0x34 0x12 0x33 0x03 0x7A 0x2A 0x00 0x00 0x00 []
    [⟨"meter1", "3ELS3312345678", "000102030405060708090A0B0C0D0E11"⟩]
    ⟨"meter1", "3ELS3312345678", "000102030405060708090A0B0C0D0E11"⟩
    (fun _ _ _ _ => [])
    (by decide) (by decide) rfl rfl (by decide) (by decide) (by decide)

/-- C2 counterexample: with mappings `[{data: "1", mapping: "on"},
{data: "_", mapping: "unknown"}]` and the default scaler 1.0, a raw value
of 1 does **not** emit `"on"`: the comparison uses Rust's Debug rendering
of the scaled `f32`, which is `"1.0"`, so the exact mapping never matches
and the wildcard emits `"unknown"`. -/
theorem modbus_mapping_exact_match_never_fires :
    processRegisterValue .Int16 [1] (f32FromRat 1 1)
      [⟨"1", .str "on"⟩, ⟨"_", .str "unknown"⟩] = .str "unknown" ∧
    processRegisterValue .Int16 [1] (f32FromRat 1 1)
      [⟨"1", .str "on"⟩, ⟨"_", .str "unknown"⟩] ≠ .str "on" := by
  constructor
  · rfl
  · intro h
    rw [show processRegisterValue .Int16 [1] (f32FromRat 1 1)
      [⟨"1", .str "on"⟩, ⟨"_", .str "unknown"⟩] = .str "unknown" from rfl] at h
    injection h with h'
    exact absurd h' (by decide)

/-- C2 (corrected): the value-mapping step compares each mapping's `data`
string against the Debug rendering of the scaled `f32` (`fmtF32Debug`),
which writes integral values with a trailing `.0`.  A mapping with data
`"1.0"` is applied for a raw value of 1; with the claim's mappings
(`"1"` / `"_"`) both raw 1 and raw 5 fall to the wildcard and emit
`"unknown"`; with no mappings the scaled numeric value is emitted. -/
theorem modbus_value_mapping_debug_rendering :
    processRegisterValue .Int16 [1] (f32FromRat 1 1)
      [⟨"1.0", .str "on"⟩, ⟨"_", .str "unknown"⟩] = .str "on" ∧
    processRegisterValue .Int16 [1] (f32FromRat 1 1)
      [⟨"1", .str "on"⟩, ⟨"_", .str "unknown"⟩] = .str "unknown" ∧
    processRegisterValue .Int16 [5] (f32FromRat 1 1)
      [⟨"1", .str "on"⟩, ⟨"_", .str "unknown"⟩] = .str "unknown" ∧
    processRegisterValue .Int16 [5] (f32FromRat 1 1) [] = .num ((5 : ℤ) : ℚ) :=
  ⟨rfl, rfl, rfl, rfl⟩

/-- C3 (code bug): the type/length byte `0x05` parses as type 0 with
length 5, but `parse_octet_string` treats **every** type-0 TLV as a
null/absent optional and returns `Ok(None)` after consuming only the TL
byte — octet strings are type 0, so the sequence
`0x05 0x01 0x02 0x03 0x04` never yields the content `[1, 2, 3, 4]` the
spec describes. -/
theorem sml_octet_string_type0_yields_none :
    parse_type_length [0x05, 0x01, 0x02, 0x03, 0x04] 0 = .ok ((0, 5), 1) ∧
    parse_octet_string [0x05, 0x01, 0x02, 0x03, 0x04] 0 = .ok (none, 1) :=
  ⟨rfl, rfl⟩

/-- C4 (code bug): the on-time row of `get_vif_function` matches only the
VIF `0x20` (the source range is `0b00100000..=0b00100000` although its
comment documents `E010 00nn`), so DIF `0x02`, VIF `0x22` (on-time,
hours), value 2 falls to the default row and emits
`unknown_at_1_22 = 2` with unit `"unknown"` instead of the claimed
`on_time = 7200` with unit `"s"`.  With VIF `0x20` (on-time, seconds) the
conversion path does run. -/
theorem oms_on_time_vif22_falls_to_unknown :
    parse_payload [0x02, 0x22, 0x02, 0x00] =
      some [("unknown_at_1_22", .num ((2 : ℕ) : ℚ)),
            ("unknown_at_1_22_unit", .str "unknown")] ∧
    parse_payload [0x02, 0x20, 0x02, 0x00] =
      some [("on_time", .num ((2 : ℤ) : ℚ)), ("on_time_unit", .str "s")] :=
  ⟨rfl, rfl⟩

/-- C5 (code bug): for a device with `read_interval = 90` the hub tick is
`min(90, 60) = 60` as claimed, but `waits_till_read` is the integer
(floor) division `90 / 60 = 1` — the source comment says "Round up" —
so the device is read every 60 seconds, which is **less** than the
configured 90 seconds, not the 120 seconds that `ceil(90 / 60) = 2`
would give. -/
theorem modbus_cadence_rounds_down :
    hub_inveral_sec [90] = 60 ∧ waits_till_read 90 60 = 1 ∧
    effective_read_interval 90 60 = 60 ∧
    effective_read_interval 90 60 < 90 ∧ 90 ≤ 2 * 60 := by
  decide

/-- C6 (code bug): for DIF `0xF0` the handler `dif_read_8digest_bcd` is a
stub: it skips four bytes and yields the constant string `"1111 1111"`
for every payload, never the BCD value (78563412 for these bytes).  The
12-digit-BCD handler (DIF `0x0C`) and the little-endian integer handlers
do decode as the claim states. -/
theorem dif_8digit_bcd_stub_constant :
    dif_read_8digest_bcd [0x12, 0x34, 0x56, 0x78] 0 = some (4, .str "1111 1111") ∧
    dif_read_12digest_bcd [0x12, 0x34, 0x56, 0x78] 0 =
      some (4, .num ((78563412 : ℕ) : ℚ)) ∧
    dif_read_16bit_int [0xCD, 0xAB] 0 = some (2, .num ((0xABCD : ℕ) : ℚ)) :=
  ⟨rfl, rfl, rfl⟩

/-- C7 counterexample: `validate_obis_code` accepts `"1-0:1.8.1*zz"`
although the F field `"zz"` after the `'*'` does not parse as a `u8`, so
the claimed validity condition (which requires F to parse) rejects it. -/
theorem obis_star_field_not_validated :
    validate_obis_code "1-0:1.8.1*zz".toList = true ∧
    claimValidObis "1-0:1.8.1*zz".toList = false := by
  decide

/-- C7 (corrected): `validate_obis_code` returns true iff the string
contains exactly one `':'`, the part before it contains exactly one
`'-'`, the part after it — cut at the first `'*'` when one is present —
has exactly three dot-separated fields, and the five fields A, B, C, D, E
parse as 8-bit unsigned integers; everything after the first `'*'` (the
optional F field) is ignored, not validated. -/
theorem validate_obis_code_amended_iff (code : List Char) :
    validate_obis_code code = amendedValidObis code := by
  have h1 := rsplit_length ':' code
  unfold validate_obis_code amendedValidObis
  cases hsp : rsplit ':' code with
  | nil => exact absurd hsp (rsplit_ne_nil _ _)
  | cons a t =>
    rw [hsp] at h1
    cases t with
    | nil =>
      have hcc : countChar ':' code = 0 := by simp at h1; omega
      simp [hcc]
    | cons b t2 =>
      cases t2 with
      | nil =>
        have hcc : countChar ':' code = 1 := by simp at h1; omega
        have h2 := rsplit_length '-' a
        cases hsp2 : rsplit '-' a with
        | nil => exact absurd hsp2 (rsplit_ne_nil _ _)
        | cons c1 t3 =>
          rw [hsp2] at h2
          cases t3 with
          | nil =>
            have hdd : countChar '-' a = 0 := by simp at h2; omega
            simp [hcc, hdd, hsp2]
          | cons c2 t4 =>
            cases t4 with
            | nil =>
              have hdd : countChar '-' a = 1 := by simp at h2; omega
              by_cases hlen :
                (if b.contains '*' then rsplit '.' ((rsplit '*' b).getD 0 [])
                 else rsplit '.' b).length = 3 <;>
                simp [hcc, hdd, hsp2, hlen]
            | cons c3 t5 =>
              have hdd : countChar '-' a ≠ 1 := by simp at h2; omega
              simp [hcc, hdd, hsp2]
      | cons b2 t3 =>
        have hcc : countChar ':' code ≠ 1 := by simp at h1; omega
        simp [hcc]

/-- C8 counterexample: a telegram carrying the checksum byte `'Z'` after
the `'!'` end marker — which does not equal the BCC the spec prescribes —
is still accepted by `parse_iec62056_telegram`: the parser stops at the
`'!'` line and never examines the checksum. -/
theorem iec_telegram_bad_bcc_accepted :
    specIecBcc "/ELS5\\@V5.3\n1-0:1.8.1(000123.456*kWh)\n!Z".toList ≠ 'Z'.toNat ∧
    iecParseOk (parse_iec62056_telegram
      "/ELS5\\@V5.3\n1-0:1.8.1(000123.456*kWh)\n!Z".toList) = true := by
  constructor
  · decide
  · rfl

/-- C8 (corrected): `parse_iec62056_telegram` performs no checksum
verification at all — for every input telegram its result is never the
`ChecksumFailed` error, so a present-but-incorrect BCC does not prevent
acceptance. -/
theorem iec_parse_never_checksum_failed (t : List Char) :
    iecNotChecksumFailed (parse_iec62056_telegram t) = true := by
  unfold parse_iec62056_telegram
  cases hlines : rustLines t with
  | nil => rfl
  | cons l ls =>
    by_cases hs : startsWithChar l '/'
    · rcases parse_identification_line_cases l with h | h | ⟨d, h⟩ <;>
        simp [h, iecNotChecksumFailed, hs]
    · simp [hs, iecNotChecksumFailed]

/-- C9 (confirmed): for every pair of 16-bit register words the Int32
composition `(word0 <<< 16) ||| word1` equals the big-endian weighted sum
`65536 * word0 + word1`; in particular words `{0x0001, 0x2345}` compose
to `0x00012345`, and the S4 scenario — a length-2 holding-register read
returning `{0x0000, 0x02BC}` with the f32 scaler `0.1` and no mappings —
emits the value 70. -/
theorem modbus_int32_big_endian_compose (w0 w1 : Nat)
    (_h0 : w0 < 65536) (h1 : w1 < 65536) :
    composeInt32 w0 w1 = 65536 * w0 + w1 ∧
    composeInt32 0x0001 0x2345 = 0x00012345 ∧
    processRegisterValue .Int32 [0x0000, 0x02BC] (f32FromRat 1 10) [] =
      .num ((70 : ℤ) : ℚ) := by
  refine ⟨?_, by decide, rfl⟩
  unfold composeInt32
  rw [Nat.shiftLeft_eq, Nat.mul_comm]
  rw [← Nat.mul_add_lt_is_or (show w1 < 2 ^ 16 by omega) w0]

/-- Witness for the C9 theorem at the words `{0x0001, 0x2345}`. -/
theorem modbus_int32_big_endian_compose_witness :
    composeInt32 0x0001 0x2345 = 65536 * 0x0001 + 0x2345 ∧
    composeInt32 0x0001 0x2345 = 0x00012345 ∧
    processRegisterValue .Int32 [0x0000, 0x02BC] (f32FromRat 1 10) [] =
      .num ((70 : ℤ) : ℚ) :=
  modbus_int32_big_endian_compose 0x0001 0x2345 (by decide) (by decide)

/-- C10 (confirmed): the CRC-stripping step is not total — for every
telegram shorter than two bytes (the empty telegram included),
`parse_oms_telegram` with `with_crc = true` hits the usize underflow of
`telegram.len() - start - 2` inside `verifiy_crc` and panics instead of
returning an `OmsParseError`. -/
theorem oms_crc_strip_panics_on_short_input (t : List Nat)
    (cfg : List OmsConfig) (dec : List Nat → Nat → Nat → List Nat → List Nat)
    (h : t.length < 2) :
    parse_oms_telegram t true cfg dec = .error .panic := by
  match t with
  | [] => rfl
  | [x] => rfl
  | x :: y :: r => simp at h; omega

/-- Witness for the C10 theorem at the empty telegram. -/
theorem oms_crc_strip_panics_on_short_input_witness :
    parse_oms_telegram [] true [] (fun _ _ _ _ => []) = .error .panic :=
  oms_crc_strip_panics_on_short_input [] [] (fun _ _ _ _ => []) (by decide)
